import Mathlib

/-!
Shallow embedding of `meeting_processor.py` (Meeting-Video-Processor) and
proofs checking the natural-language specification against it.

Each Python function relevant to the claims is translated into a Lean
definition; external effects (subprocess results, filesystem probes, the
remote Gemini service, user input) are passed in explicitly as data, and
Python exceptions become `Except` values.
-/

namespace MeetingProcessor

/-! ## DateTime resolver (`_extract_datetime`, lines 321-360)

The Python code mutates `self.config.preferred_date_source` as it falls
through the chain.  We embed the control flow directly: the environment
supplies the outcome of each source probe (`none` models the helper
returning `None` / the probe failing), and the result records both the
resolved value and the ordered list of sources actually attempted. -/

inductive DateSource where
  | metadata
  | file_mtime
  | manual
deriving DecidableEq, Repr

/-- Position of a source in the fixed fallback order
`metadata -> file_mtime -> manual`. -/
def DateSource.idx : DateSource → Nat
  | .metadata => 0
  | .file_mtime => 1
  | .manual => 2

/-- Environment for one run of the resolver: what each source would yield.
`manualResult` models `_get_manual_datetime`, which in the embedded model
always produces a value (interactive input or the dry-run placeholder). -/
structure DateEnv where
  metadataResult : Option Nat
  mtimeResult : Option Nat
  manualResult : Nat
deriving DecidableEq, Repr

/-- `_extract_datetime` for an already-validated preferred source.
Returns the resolved timestamp together with the ordered list of sources
attempted.  Mirrors the three sequential `if` blocks: each failing block
overwrites `preferred_date_source` with the NEXT source in the chain, so a
block earlier in the file than the preferred source is never entered. -/
def extractDatetime (pref : DateSource) (env : DateEnv) : Nat × List DateSource :=
  match pref with
  | .metadata =>
    match env.metadataResult with
    | some dt => (dt, [.metadata])
    | none =>
      -- falls through with preferred_date_source := "file_mtime"
      match env.mtimeResult with
      | some dt => (dt, [.metadata, .file_mtime])
      | none => (env.manualResult, [.metadata, .file_mtime, .manual])
  | .file_mtime =>
    -- the `preferred_date_source == "metadata"` block is skipped entirely
    match env.mtimeResult with
    | some dt => (dt, [.file_mtime])
    | none =>
      -- falls through with preferred_date_source := "manual"
      (env.manualResult, [.file_mtime, .manual])
  | .manual => (env.manualResult, [.manual])

/-- The validation prologue of `_extract_datetime`: an unrecognized
`PREFERRED_DATE_SOURCE` string is replaced by `"metadata"`. -/
def validateDateSource (s : String) : DateSource :=
  if s = "metadata" then .metadata
  else if s = "file_mtime" then .file_mtime
  else if s = "manual" then .manual
  else .metadata

/-! ## Generation-parameter validation (`get_parameter_defaults`, lines 128-162)

`temperature` and `top_p` are Python floats; we embed them as rationals
(`max`/`min` on non-NaN floats agree with the rational order).
`candidate_count` passes through `int(...)`, so we take it as an integer. -/

structure ParamDefaults where
  temperature : ℚ
  top_p : ℚ
  top_k : Int
  candidate_count : Int
deriving DecidableEq, Repr

/-- The validation block of `get_parameter_defaults`: clamp temperature to
[0, 2] and top_p to [0, 1] via `max(lo, min(hi, x))`, force top_k to 64,
clamp candidate_count to [1, 8]. -/
def validateParams (d : ParamDefaults) : ParamDefaults :=
  { temperature := max 0 (min 2 d.temperature)
    top_p := max 0 (min 1 d.top_p)
    top_k := 64
    candidate_count := max 1 (min 8 d.candidate_count) }

/-! ## Retry with exponential backoff (`_retry_with_exponential_backoff`, lines 645-701)

A Python exception is embedded as a record of the attributes the classifier
probes: an optional numeric `status_code`, optional `message` and `details`
attributes (absence of the attribute = `none`), and the `str(e)` form. -/

structure PyErr where
  status_code : Option Int
  message : Option String
  details : Option String
  strForm : String
deriving DecidableEq, Repr

/-- Contiguous-sublist test on character lists. -/
def listContains (needle : List Char) : List Char → Bool
  | [] => needle.isEmpty
  | c :: t => needle.isPrefixOf (c :: t) || listContains needle t

/-- `"503" in str(x)` style substring test. -/
def strContains (haystack needle : String) : Bool :=
  listContains needle.toList haystack.toList

/-- The `is_503_error` classification chain: status_code equals 503, or the
`message` attribute's string form contains "503", or the `details`
attribute's string form contains "503", or `str(e)` contains both "503" and
"UNAVAILABLE". -/
def is503Error (e : PyErr) : Bool :=
  (match e.status_code with
   | some c => c = 503
   | none => false)
  || (match e.message with
      | some m => strContains m "503"
      | none => false)
  || (match e.details with
      | some d => strContains d "503"
      | none => false)
  || (strContains e.strForm "503" && strContains e.strForm "UNAVAILABLE")

/-- The error raised by the dead `raise RuntimeError("Unexpected error in
retry logic")` line after the loop. -/
def unexpectedRetryErr : PyErr :=
  { status_code := none, message := none, details := none
    strForm := "Unexpected error in retry logic" }

/-- One run of the retry loop starting at attempt number `attempt` with
`remaining` loop iterations left.  `results k` is what `func()` does on
attempt `k` (`.ok` = returns, `.error` = raises).  Produces the final
outcome and the ordered list of sleep durations performed.  `remaining = 0`
models falling off the end of the `for` loop. -/
def retryAux (results : Nat → Except PyErr Nat) (baseDelay : Nat) :
    Nat → Nat → Except PyErr Nat × List Nat
  | _, 0 => (.error unexpectedRetryErr, [])
  | attempt, r + 1 =>
    match results attempt with
    | .ok v => (.ok v, [])
    | .error e =>
      if is503Error e then
        if 0 < r then
          -- attempt < max_retries: sleep base_delay * 2^attempt, retry
          let delay := baseDelay * 2 ^ attempt
          let rest := retryAux results baseDelay (attempt + 1) r
          (rest.1, delay :: rest.2)
        else
          -- last attempt failed with 503: re-raise
          (.error e, [])
      else
        -- non-503: re-raise immediately
        (.error e, [])

/-- `_retry_with_exponential_backoff(func, max_retries, base_delay)`:
the loop runs over `attempt in range(max_retries + 1)`. -/
def retryWithExponentialBackoff (results : Nat → Except PyErr Nat)
    (maxRetries baseDelay : Nat) : Except PyErr Nat × List Nat :=
  retryAux results baseDelay 0 (maxRetries + 1)

/-! ## Transcode step (`_convert_video`, lines 462-497)

The external tool outcome is embedded as the subprocess return code plus
the state of the output file afterwards. -/

structure ToolOutcome where
  returncode : Int
  outputExists : Bool
  outputSize : Nat
deriving DecidableEq, Repr

inductive ConvertErr where
  | presetFileNotFound
  | handbrakeFailed
  | outputFileNotCreated
  | outputFileEmpty
deriving DecidableEq, Repr

/-- `_convert_video` outside dry-run mode: preset file must exist, the tool
must exit 0, and the output file must exist and be non-empty. -/
def convertVideo (presetFileExists : Bool) (o : ToolOutcome) :
    Except ConvertErr Unit :=
  if !presetFileExists then .error .presetFileNotFound
  else if o.returncode ≠ 0 then .error .handbrakeFailed
  else if !o.outputExists then .error .outputFileNotCreated
  else if o.outputSize = 0 then .error .outputFileEmpty
  else .ok ()

/-! ## Prompt shortcut resolution and the frame-extraction skip
(`_resolve_prompt_shortcut` lines 554-561, `run` lines 293-295) -/

/-- ASCII case-lowering of one character (what `str.lower` does on the
ASCII shortcut keys). -/
def lowerChar (c : Char) : Char :=
  if 'A' ≤ c && c ≤ 'Z' then Char.ofNat (c.toNat + 32) else c

/-- `prompt_input.lower()` (ASCII). -/
def lowerString (s : String) : String :=
  String.mk (s.data.map lowerChar)

/-- `_resolve_prompt_shortcut`: look up `prompt_input.lower()` in the
shortcut table; on a miss return the ORIGINAL (un-lowered) input. -/
def resolvePromptShortcut (promptInput : String) : String :=
  let lowered := lowerString promptInput
  if lowered = "only transcript" then "prompt_only_transcript.txt"
  else if lowered = "without transcript" then "prompt_wo_transcript.txt"
  else promptInput

/-- Step 5 of `run`: frames are extracted unless the RAW `prompt_type`
argument equals the literal `"prompt_only_transcript.txt"` (`None` compares
unequal, so frames are extracted then too). -/
def skipsFrameExtraction (promptType : Option String) : Bool :=
  promptType = some "prompt_only_transcript.txt"

/-! ## Resource-limit checking and manifest building
(`_upload_to_gemini`, lines 744-797)

The filesystem facts the code probes are passed in as an `AssetState`;
the per-model ceilings as a `ModelLimits`.  The block emits warnings and a
manifest (ordered list of (kind, file-name) pairs); it has no failure
outcome: every limit check is warn-only, and only the frame-count check
changes the manifest. -/

structure ModelLimits where
  max_input_tokens : Nat
  max_output_tokens : Nat
  max_images_per_prompt : Nat
  max_image_size_mb : ℚ
  max_audio_length_hours : ℚ
deriving DecidableEq, Repr

structure FrameFile where
  name : String
  sizeBytes : Nat
deriving DecidableEq, Repr

structure AssetState where
  audioExists : Bool
  /-- `none` models the ffprobe duration probe raising. -/
  audioDurationHours : Option ℚ
  framesDirExists : Bool
  /-- The `frames/*.jpg` glob result, in collection order. -/
  frameFiles : List FrameFile
  /-- `none` = `note.txt` missing; `some n` = exists with size `n`. -/
  noteSize : Option Nat
  promptTokens : Nat
deriving DecidableEq, Repr

inductive LimitWarning where
  | promptTokensExceeded (tokens limit : Nat)
  | audioDurationUnknown
  | audioDurationExceeded
  | frameCountExceeded (count limit : Nat)
  | imageSizeExceeded (name : String)
deriving DecidableEq, Repr

inductive UploadKind where
  | audio
  | frame
  | note
deriving DecidableEq, Repr

/-- The token-count check: warn (only) when the prompt exceeds the limit. -/
def promptTokenWarnings (limits : ModelLimits) (st : AssetState) : List LimitWarning :=
  if limits.max_input_tokens < st.promptTokens then
    [.promptTokensExceeded st.promptTokens limits.max_input_tokens]
  else []

/-- The audio block: probe duration (warn if the probe fails or the
duration exceeds the ceiling), then append the audio entry regardless. -/
def audioBlock (limits : ModelLimits) (st : AssetState) :
    List LimitWarning × List (UploadKind × String) :=
  if st.audioExists then
    let warns :=
      match st.audioDurationHours with
      | none => [LimitWarning.audioDurationUnknown]
      | some h =>
        if limits.max_audio_length_hours < h then [LimitWarning.audioDurationExceeded]
        else []
    (warns, [(UploadKind.audio, "audio.m4a")])
  else ([], [])

/-- The frames block: glob, truncate to the ceiling when over it (keeping
the first `max_images_per_prompt` in collection order, with a warning),
then warn per oversized image and append every kept frame. -/
def framesBlock (limits : ModelLimits) (st : AssetState) :
    List LimitWarning × List (UploadKind × String) :=
  if st.framesDirExists then
    let countWarns :=
      if limits.max_images_per_prompt < st.frameFiles.length then
        [LimitWarning.frameCountExceeded st.frameFiles.length limits.max_images_per_prompt]
      else []
    let kept :=
      if limits.max_images_per_prompt < st.frameFiles.length then
        st.frameFiles.take limits.max_images_per_prompt
      else st.frameFiles
    let sizeWarns :=
      (kept.filter fun f =>
        limits.max_image_size_mb < (f.sizeBytes : ℚ) / (1024 * 1024)).map
        fun f => LimitWarning.imageSizeExceeded f.name
    (countWarns ++ sizeWarns, kept.map fun f => (UploadKind.frame, f.name))
  else ([], [])

/-- The note block: append the note entry iff `note.txt` exists with
strictly positive size. -/
def noteBlock (st : AssetState) : List (UploadKind × String) :=
  match st.noteSize with
  | some n => if 0 < n then [(UploadKind.note, "note.txt")] else []
  | none => []

/-- Lines 744-797 of `_upload_to_gemini`: all warnings plus the ordered
manifest `files_to_upload`.  Total: no check aborts. -/
def buildFilesToUpload (limits : ModelLimits) (st : AssetState) :
    List LimitWarning × List (UploadKind × String) :=
  let tw := promptTokenWarnings limits st
  let ab := audioBlock limits st
  let fb := framesBlock limits st
  (tw ++ ab.1 ++ fb.1, ab.2 ++ fb.2 ++ noteBlock st)

/-! ## Sequential upload loop and request assembly
(`_upload_to_gemini`, lines 811-853)

`uploadResult name` is the remote service's response to uploading that
file: `some h` = a remote handle, `none` = the upload raising. -/

abbrev Handle := Nat

structure UploadedFiles where
  audio : Option Handle
  frames : List Handle
  note : Option Handle
deriving DecidableEq, Repr

inductive UploadErr where
  | audioUploadFailed (name : String)
deriving DecidableEq, Repr

/-- The `for i, (file_type, file_path) in enumerate(files_to_upload)` loop:
a failed audio upload re-raises (aborting the run); failed frame/note
uploads are skipped and the loop continues. -/
def uploadFiles (uploadResult : String → Option Handle) :
    List (UploadKind × String) → UploadedFiles → Except UploadErr UploadedFiles
  | [], acc => .ok acc
  | (k, name) :: rest, acc =>
    match uploadResult name with
    | some h =>
      let acc' :=
        match k with
        | .audio => { acc with audio := some h }
        | .frame => { acc with frames := acc.frames ++ [h] }
        | .note => { acc with note := some h }
      uploadFiles uploadResult rest acc'
    | none =>
      match k with
      | .audio => .error (.audioUploadFailed name)
      | .frame => uploadFiles uploadResult rest acc
      | .note => uploadFiles uploadResult rest acc

def emptyUploaded : UploadedFiles := { audio := none, frames := [], note := none }

inductive Part where
  | text (s : String)
  | file (h : Handle)
deriving DecidableEq, Repr

/-- `content_parts`: prompt text, then the audio handle if present, then
the frame handles in order, then the note handle if present. -/
def contentParts (promptText : String) (u : UploadedFiles) : List Part :=
  [Part.text promptText]
    ++ (match u.audio with | some h => [Part.file h] | none => [])
    ++ u.frames.map Part.file
    ++ (match u.note with | some h => [Part.file h] | none => [])

/-! ## Generation outcome and remote-handle cleanup
(`_upload_to_gemini`, lines 880-916) -/

inductive GenErr where
  | serviceError (e : PyErr)
  | emptyResponse
deriving DecidableEq, Repr

/-- The uploaded handles in the order the cleanup block deletes them:
audio, then frames, then note. -/
def uploadedHandles (u : UploadedFiles) : List Handle :=
  (match u.audio with | some h => [h] | none => [])
    ++ u.frames
    ++ (match u.note with | some h => [h] | none => [])

/-- The delete sequence inside the single `try` block: deletions run in
order; the first failing delete raises out of the whole block (caught and
logged by the enclosing `except`), so later handles are not attempted. -/
def releaseAttempts (deleteOk : Handle → Bool) : List Handle → List Handle
  | [] => []
  | h :: t => if deleteOk h then h :: releaseAttempts deleteOk t else [h]

/-- Lines 880-916: run generation (`genOutcome` is what the retry-wrapped
call does); an exception propagates at once, an empty `response.text`
raises `RuntimeError`, and only on a saved non-empty result does control
reach the cleanup block.  Returns the outcome and the list of handles for
which a delete was attempted. -/
def generateAndCleanup (u : UploadedFiles) (genOutcome : Except PyErr String)
    (deleteOk : Handle → Bool) : Except GenErr String × List Handle :=
  match genOutcome with
  | .error e => (.error (.serviceError e), [])
  | .ok txt =>
    if txt = "" then (.error .emptyResponse, [])
    else (.ok txt, releaseAttempts deleteOk (uploadedHandles u))

/-! ## Top-level `run` and failure rollback
(`run` lines 275-319, `_cleanup_on_failure` lines 703-713, `_cleanup`
lines 920-933)

The filesystem is a list of existing paths (path = list of components).
`shutil.rmtree(dir)` removes `dir` and everything below it. -/

abbrev FsPath := List String

/-- `shutil.rmtree`: drop the directory and its whole subtree. -/
def rmtree (fs : List FsPath) (dir : FsPath) : List FsPath :=
  fs.filter fun p => !dir.isPrefixOf p

/-- Create a path if absent. -/
def touchPath (fs : List FsPath) (p : FsPath) : List FsPath :=
  if p ∈ fs then fs else p :: fs

/-- Which pipeline stages succeed on this run (the external collaborators
are fallible; each `false` models that stage's call raising). -/
structure StageResults where
  convertOk : Bool
  audioOk : Bool
  framesOk : Bool
  promptOk : Bool
  uploadOk : Bool
deriving DecidableEq, Repr

/-- The `except` clause of `run`: `_cleanup_on_failure` removes the whole
target-directory tree, then the exception is re-raised (success `false`). -/
def failRun (fs : List FsPath) (targetDir : FsPath) : Bool × List FsPath :=
  (false, rmtree fs targetDir)

/-- `run` after datetime resolution, outside dry-run mode: create the
target directory, run the stages in order, roll the workspace back on any
stage failure, and on success delete the frames subdirectory unless
`no_cleanup`.  Returns (success, final filesystem). -/
def runModel (fs0 : List FsPath) (targetDir : FsPath) (st : StageResults)
    (skipFrames noCleanup : Bool) : Bool × List FsPath :=
  let fs1 := touchPath fs0 targetDir
  if !st.convertOk then failRun fs1 targetDir
  else
    let fs2 := touchPath fs1 (targetDir ++ ["small.mp4"])
    if !st.audioOk then failRun fs2 targetDir
    else
      let fs3 := touchPath fs2 (targetDir ++ ["audio.m4a"])
      if !skipFrames && !st.framesOk then
        -- frames dir is created before the extraction call raises
        failRun (touchPath fs3 (targetDir ++ ["frames"])) targetDir
      else
        let fs4 := if skipFrames then fs3 else touchPath fs3 (targetDir ++ ["frames"])
        let fs5 := touchPath fs4 (targetDir ++ ["meeting.md"])
        if !st.promptOk then failRun fs5 targetDir
        else
          let fs6 := touchPath fs5 (targetDir ++ ["prompt.txt"])
          let fs7 := touchPath fs6 (targetDir ++ ["note.txt"])
          if !st.uploadOk then failRun fs7 targetDir
          else if noCleanup then (true, fs7)
          else (true, rmtree fs7 (targetDir ++ ["frames"]))

/-! ## Theorems -/

/-- Behaviour of `max lo (min hi x)` clamping on a linear order. -/
theorem clamp_spec {α : Type*} [LinearOrder α] (lo hi x : α) (hlohi : lo ≤ hi) :
    lo ≤ max lo (min hi x) ∧ max lo (min hi x) ≤ hi ∧
    (lo ≤ x → x ≤ hi → max lo (min hi x) = x) ∧
    (x < lo → max lo (min hi x) = lo) ∧
    (hi < x → max lo (min hi x) = hi) := by
  refine ⟨le_max_left _ _, max_le hlohi (min_le_left _ _), ?_, ?_, ?_⟩
  · intro h1 h2
    rw [min_eq_right h2, max_eq_right h1]
  · intro h
    rw [min_eq_right (h.le.trans hlohi), max_eq_left h.le]
  · intro h
    rw [min_eq_left h.le, max_eq_right hlohi]

/-- C1 (counterexample): with preferred source `file_mtime`, a failing
mtime probe, and metadata available (value 42), the resolver never
attempts the metadata source and returns the manual value instead —
refuting the claim that metadata is still attempted before manual. -/
theorem c1_counterexample :
    DateSource.metadata ∉ (extractDatetime .file_mtime ⟨some 42, none, 7⟩).2 ∧
    (extractDatetime .file_mtime ⟨some 42, none, 7⟩).1 = 7 := by
  decide

/-- C1 (amended): the resolver attempts the preferred source first and on
failure falls FORWARD through the fixed order metadata → file_mtime →
manual; no source is attempted twice, and sources earlier in the order
than the preferred one are never attempted.  In particular a failing
file_mtime preferred source falls directly to manual input, without
attempting metadata. -/
theorem c1_datetime_forward_fallback (pref : DateSource) (env : DateEnv) :
    (extractDatetime pref env).2.head? = some pref ∧
    List.Sublist (extractDatetime pref env).2
      [DateSource.metadata, DateSource.file_mtime, DateSource.manual] ∧
    (extractDatetime pref env).2.Nodup ∧
    (∀ s ∈ (extractDatetime pref env).2, pref.idx ≤ s.idx) ∧
    (env.mtimeResult = none →
      extractDatetime DateSource.file_mtime env =
        (env.manualResult, [DateSource.file_mtime, DateSource.manual])) := by
  obtain ⟨m, t, u⟩ := env
  cases pref <;> cases m <;> cases t <;>
    simp [extractDatetime, DateSource.idx]

/-- C1 (amended) witness at a concrete input. -/
theorem c1_datetime_forward_fallback_witness :
    extractDatetime DateSource.file_mtime ⟨some 1, none, 9⟩ =
      (9, [DateSource.file_mtime, DateSource.manual]) :=
  (c1_datetime_forward_fallback DateSource.file_mtime ⟨some 1, none, 9⟩).2.2.2.2 rfl

/-- C4: the validated generation parameters clamp temperature to [0, 2],
top_p to [0, 1] and candidate_count to [1, 8] (identity inside the range,
saturating outside it), and force top_k to 64 regardless of input. -/
theorem c4_parameter_clamping (d : ParamDefaults) :
    (0 ≤ (validateParams d).temperature ∧ (validateParams d).temperature ≤ 2 ∧
      (0 ≤ d.temperature → d.temperature ≤ 2 →
        (validateParams d).temperature = d.temperature) ∧
      (d.temperature < 0 → (validateParams d).temperature = 0) ∧
      (2 < d.temperature → (validateParams d).temperature = 2)) ∧
    (0 ≤ (validateParams d).top_p ∧ (validateParams d).top_p ≤ 1 ∧
      (0 ≤ d.top_p → d.top_p ≤ 1 → (validateParams d).top_p = d.top_p) ∧
      (d.top_p < 0 → (validateParams d).top_p = 0) ∧
      (1 < d.top_p → (validateParams d).top_p = 1)) ∧
    (validateParams d).top_k = 64 ∧
    (1 ≤ (validateParams d).candidate_count ∧ (validateParams d).candidate_count ≤ 8 ∧
      (1 ≤ d.candidate_count → d.candidate_count ≤ 8 →
        (validateParams d).candidate_count = d.candidate_count) ∧
      (d.candidate_count < 1 → (validateParams d).candidate_count = 1) ∧
      (8 < d.candidate_count → (validateParams d).candidate_count = 8)) := by
  have ht := clamp_spec (0 : ℚ) 2 d.temperature (by norm_num)
  have hp := clamp_spec (0 : ℚ) 1 d.top_p (by norm_num)
  have hc := clamp_spec (1 : Int) 8 d.candidate_count (by norm_num)
  exact ⟨by simpa [validateParams] using ht, by simpa [validateParams] using hp,
    rfl, by simpa [validateParams] using hc⟩

/-- C4 witness: out-of-range inputs are clamped, top_k forced to 64. -/
theorem c4_parameter_clamping_witness :
    (validateParams ⟨5, -1, 0, 99⟩).temperature = 2 ∧
    (validateParams ⟨5, -1, 0, 99⟩).top_p = 0 ∧
    (validateParams ⟨5, -1, 0, 99⟩).top_k = 64 ∧
    (validateParams ⟨5, -1, 0, 99⟩).candidate_count = 8 := by
  have h := c4_parameter_clamping ⟨5, -1, 0, 99⟩
  exact ⟨h.1.2.2.2.2 (by norm_num), h.2.1.2.2.2.1 (by norm_num),
    h.2.2.1, h.2.2.2.2.2.2.2 (by norm_num)⟩

/-- C7: the transcode step fails on a non-zero tool exit, and also on exit
0 with a missing or empty output file; it succeeds exactly when the tool
exits 0 and the output file exists with non-zero size. -/
theorem c7_transcode_validation (o : ToolOutcome) :
    (convertVideo true o = .ok () ↔
      o.returncode = 0 ∧ o.outputExists = true ∧ 0 < o.outputSize) ∧
    (o.returncode ≠ 0 → convertVideo true o = .error .handbrakeFailed) ∧
    (o.returncode = 0 → o.outputExists = false →
      convertVideo true o = .error .outputFileNotCreated) ∧
    (o.returncode = 0 → o.outputExists = true → o.outputSize = 0 →
      convertVideo true o = .error .outputFileEmpty) := by
  obtain ⟨rc, ex, sz⟩ := o
  by_cases hrc : rc = 0 <;> cases ex <;> rcases Nat.eq_zero_or_pos sz with hsz | hsz <;>
    subst_vars <;> simp_all [convertVideo] <;> omega

/-- C7 witness: concrete outcomes for each validation branch. -/
theorem c7_transcode_validation_witness :
    convertVideo true ⟨0, true, 0⟩ = .error ConvertErr.outputFileEmpty ∧
    convertVideo true ⟨0, false, 3⟩ = .error ConvertErr.outputFileNotCreated ∧
    convertVideo true ⟨1, true, 3⟩ = .error ConvertErr.handbrakeFailed ∧
    convertVideo true ⟨0, true, 3⟩ = .ok () :=
  ⟨(c7_transcode_validation ⟨0, true, 0⟩).2.2.2 rfl rfl rfl,
    (c7_transcode_validation ⟨0, false, 3⟩).2.2.1 rfl rfl,
    (c7_transcode_validation ⟨1, true, 3⟩).2.1 (by decide),
    (c7_transcode_validation ⟨0, true, 3⟩).1.2 ⟨rfl, rfl, by decide⟩⟩

/-- C9: frame extraction is skipped iff the raw prompt-type argument is
literally "prompt_only_transcript.txt"; the shortcut "only transcript"
resolves to that same file yet does not skip frame extraction, because the
skip test runs on the unresolved argument. -/
theorem c9_frame_skip_literal_only :
    (∀ p : Option String,
      skipsFrameExtraction p = true ↔ p = some "prompt_only_transcript.txt") ∧
    skipsFrameExtraction (some "only transcript") = false ∧
    skipsFrameExtraction none = false ∧
    resolvePromptShortcut "only transcript" = "prompt_only_transcript.txt" := by
  refine ⟨fun p => ?_, by decide, by decide, by decide⟩
  simp [skipsFrameExtraction]

/-- C10: the note asset enters the upload manifest iff `note.txt` exists
with strictly positive size; an existing empty note file is excluded. -/
theorem c10_note_iff_nonempty (limits : ModelLimits) (st : AssetState) :
    (UploadKind.note, "note.txt") ∈ (buildFilesToUpload limits st).2 ↔
      ∃ n, st.noteSize = some n ∧ 0 < n := by
  obtain ⟨aEx, aDur, fEx, fFiles, nSize, pTok⟩ := st
  cases aEx <;> cases fEx <;> cases nSize <;>
    simp [buildFilesToUpload, audioBlock, framesBlock, noteBlock]

/-- C5: with frames present and more discovered frames than the ceiling,
the manifest keeps exactly the first `max_images_per_prompt` frames in
collection order, a frame-count warning is emitted, and the token-count
and audio-duration checks never change the manifest (the builder is a
total function: no limit check can abort the pipeline, and image-size
violations still leave every kept frame in the manifest). -/
theorem c5_frame_truncation (limits : ModelLimits) (st : AssetState)
    (hdir : st.framesDirExists = true)
    (hover : limits.max_images_per_prompt < st.frameFiles.length) :
    (buildFilesToUpload limits st).2 =
      (if st.audioExists then [(UploadKind.audio, "audio.m4a")] else [])
        ++ (st.frameFiles.take limits.max_images_per_prompt).map
            (fun f => (UploadKind.frame, f.name))
        ++ noteBlock st ∧
    LimitWarning.frameCountExceeded st.frameFiles.length limits.max_images_per_prompt
      ∈ (buildFilesToUpload limits st).1 ∧
    (∀ tok dur,
      (buildFilesToUpload limits
        { st with promptTokens := tok, audioDurationHours := dur }).2 =
      (buildFilesToUpload limits st).2) := by
  obtain ⟨aEx, aDur, fEx, fFiles, nSize, pTok⟩ := st
  simp only at hdir hover
  subst hdir
  refine ⟨?_, ?_, fun tok dur => ?_⟩ <;>
    cases aEx <;>
    simp [buildFilesToUpload, audioBlock, framesBlock, noteBlock,
      promptTokenWarnings, hover]

/-- C5 witness at a concrete over-the-ceiling input. -/
theorem c5_frame_truncation_witness :
    (buildFilesToUpload
        { max_input_tokens := 10, max_output_tokens := 10, max_images_per_prompt := 1,
          max_image_size_mb := 7, max_audio_length_hours := 8 }
        { audioExists := true, audioDurationHours := some 1, framesDirExists := true,
          frameFiles := [⟨"frame_0001.jpg", 100⟩, ⟨"frame_0002.jpg", 100⟩],
          noteSize := some 5, promptTokens := 3 }).2 =
      [(UploadKind.audio, "audio.m4a"), (UploadKind.frame, "frame_0001.jpg"),
        (UploadKind.note, "note.txt")] ∧
    LimitWarning.frameCountExceeded 2 1 ∈
      (buildFilesToUpload
        { max_input_tokens := 10, max_output_tokens := 10, max_images_per_prompt := 1,
          max_image_size_mb := 7, max_audio_length_hours := 8 }
        { audioExists := true, audioDurationHours := some 1, framesDirExists := true,
          frameFiles := [⟨"frame_0001.jpg", 100⟩, ⟨"frame_0002.jpg", 100⟩],
          noteSize := some 5, promptTokens := 3 }).1 := by
  have h := c5_frame_truncation
    { max_input_tokens := 10, max_output_tokens := 10, max_images_per_prompt := 1,
      max_image_size_mb := 7, max_audio_length_hours := 8 }
    { audioExists := true, audioDurationHours := some 1, framesDirExists := true,
      frameFiles := [⟨"frame_0001.jpg", 100⟩, ⟨"frame_0002.jpg", 100⟩],
      noteSize := some 5, promptTokens := 3 }
    rfl (by decide)
  exact ⟨h.1.trans (by simp [noteBlock]), h.2.1⟩

/-- Unfolding: a returning attempt ends the loop with no sleep. -/
theorem retryAux_ok {results : Nat → Except PyErr Nat} {b a r v : Nat}
    (h : results a = .ok v) : retryAux results b a (r + 1) = (.ok v, []) := by
  simp [retryAux, h]

/-- Unfolding: a non-503 failure ends the loop at once with no sleep. -/
theorem retryAux_non503 {results : Nat → Except PyErr Nat} {b a r : Nat} {e : PyErr}
    (h : results a = .error e) (h503 : is503Error e = false) :
    retryAux results b a (r + 1) = (.error e, []) := by
  simp [retryAux, h, h503]

/-- Unfolding: a 503 failure with retries left sleeps `b * 2 ^ attempt`
and continues. -/
theorem retryAux_503_step {results : Nat → Except PyErr Nat} {b a r : Nat} {e : PyErr}
    (h : results a = .error e) (h503 : is503Error e = true) (hr : 0 < r) :
    retryAux results b a (r + 1) =
      ((retryAux results b (a + 1) r).1,
        b * 2 ^ a :: (retryAux results b (a + 1) r).2) := by
  simp [retryAux, h, h503, hr]

/-- Unfolding: a 503 failure on the final attempt re-raises with no sleep. -/
theorem retryAux_503_last {results : Nat → Except PyErr Nat} {b a : Nat} {e : PyErr}
    (h : results a = .error e) (h503 : is503Error e = true) :
    retryAux results b a 1 = (.error e, []) := by
  simp [retryAux, h, h503]

/-- Re-indexing the sleep schedule after one consumed attempt. -/
theorem delay_shift (b a r : Nat) :
    b * 2 ^ a :: ((List.range r).map fun j => b * 2 ^ (a + 1 + j)) =
      (List.range (r + 1)).map fun j => b * 2 ^ (a + j) := by
  rw [List.range_succ_eq_map, List.map_cons, List.map_map]
  simp only [Nat.add_zero, List.cons.injEq, true_and]
  apply List.map_congr_left
  intro j _
  simp only [Function.comp_apply]
  rw [show a + 1 + j = a + j.succ by omega]

/-- After `k` consecutive 503 failures the loop has slept the first `k`
delays and behaves like a fresh loop starting at attempt `a + k`. -/
theorem retryAux_after_503s (results : Nat → Except PyErr Nat) (b : Nat) :
    ∀ k r a, k < r →
      (∀ j, j < k → ∃ e, results (a + j) = .error e ∧ is503Error e = true) →
      retryAux results b a r =
        ((retryAux results b (a + k) (r - k)).1,
          ((List.range k).map fun j => b * 2 ^ (a + j))
            ++ (retryAux results b (a + k) (r - k)).2) := by
  intro k
  induction k with
  | zero =>
    intro r a _ _
    simp
  | succ k ih =>
    intro r a hk hpre
    obtain ⟨r', rfl⟩ : ∃ r', r = r' + 1 := ⟨r - 1, by omega⟩
    obtain ⟨e0, he0, h5030⟩ := hpre 0 (by omega)
    rw [retryAux_503_step (by simpa using he0) h5030 (by omega)]
    rw [ih r' (a + 1) (by omega) (fun j hj => by
      obtain ⟨e', he', h'⟩ := hpre (j + 1) (by omega)
      exact ⟨e', by rwa [show a + (j + 1) = a + 1 + j by omega] at he', h'⟩)]
    rw [show a + 1 + k = a + (k + 1) by omega, show r' - k = r' + 1 - (k + 1) by omega]
    refine Prod.ext rfl ?_
    simp only
    rw [← List.cons_append, delay_shift]

/-- C3: with max_retries = 5 and base_delay = 60 — (1) an error is
classified retryable iff its status field is 503, or its message or
details contain "503", or its string form contains both "503" and
"UNAVAILABLE"; (2) after any number `k ≤ 5` of leading retryable failures,
a non-retryable failure propagates at once, adding no sleep beyond the `k`
backoff sleeps already performed (zero sleeps when it is the first
attempt); (3) six consecutive retryable failures propagate the last error
after sleeping 60, 120, 240, 480, 960 seconds in order; (4) a success on
attempt `k` after `k` retryable failures returns that attempt's value
having slept exactly the first `k` delays. -/
theorem c3_retry_backoff (results : Nat → Except PyErr Nat) :
    (∀ e : PyErr, is503Error e = true ↔
      (e.status_code = some 503 ∨
        (∃ m, e.message = some m ∧ strContains m "503" = true) ∨
        (∃ d, e.details = some d ∧ strContains d "503" = true) ∨
        (strContains e.strForm "503" = true ∧
          strContains e.strForm "UNAVAILABLE" = true))) ∧
    (∀ k e, k ≤ 5 →
      (∀ j, j < k → ∃ e', results j = .error e' ∧ is503Error e' = true) →
      results k = .error e → is503Error e = false →
      retryWithExponentialBackoff results 5 60 =
        (.error e, (List.range k).map fun j => 60 * 2 ^ j)) ∧
    ((∀ j, j ≤ 5 → ∃ e', results j = .error e' ∧ is503Error e' = true) →
      ∃ e5, results 5 = .error e5 ∧
        retryWithExponentialBackoff results 5 60 =
          (.error e5, [60, 120, 240, 480, 960])) ∧
    (∀ k v, k ≤ 5 →
      (∀ j, j < k → ∃ e', results j = .error e' ∧ is503Error e' = true) →
      results k = .ok v →
      retryWithExponentialBackoff results 5 60 =
        (.ok v, (List.range k).map fun j => 60 * 2 ^ j)) := by
  refine ⟨?_, ?_, ?_, ?_⟩
  · intro e
    obtain ⟨sc, msg, det, sf⟩ := e
    cases sc <;> cases msg <;> cases det <;>
      simp [is503Error] <;> tauto
  · intro k e hk hpre hres h503
    have h := retryAux_after_503s results 60 k 6 0 (by omega) (by simpa using hpre)
    obtain ⟨r', hr'⟩ : ∃ r', 6 - k = r' + 1 := ⟨5 - k, by omega⟩
    rw [retryWithExponentialBackoff, h, hr',
      retryAux_non503 (by simpa using hres) h503]
    simp
  · intro hpre
    obtain ⟨e5, he5, h5035⟩ := hpre 5 (le_refl 5)
    refine ⟨e5, he5, ?_⟩
    have h := retryAux_after_503s results 60 5 6 0 (by omega)
      (fun j hj => by simpa using hpre j (by omega))
    rw [retryWithExponentialBackoff, h]
    rw [show (6 : Nat) - 5 = 1 by omega,
      retryAux_503_last (by simpa using he5) h5035]
    simp
    decide
  · intro k v hk hpre hres
    have h := retryAux_after_503s results 60 k 6 0 (by omega) (by simpa using hpre)
    obtain ⟨r', hr'⟩ : ∃ r', 6 - k = r' + 1 := ⟨5 - k, by omega⟩
    rw [retryWithExponentialBackoff, h, hr',
      retryAux_ok (by simpa using hres)]
    simp

/-- C3 witness: three 503 failures then success returns the success value
after sleeping 60, 120, 240; a non-503 first failure raises with zero
sleeps. -/
theorem c3_retry_backoff_witness :
    retryWithExponentialBackoff
        (fun k => if k < 3
          then .error ⟨some 503, none, none, "503 UNAVAILABLE"⟩
          else .ok 7) 5 60 = (.ok 7, [60, 120, 240]) ∧
    retryWithExponentialBackoff
        (fun _ => .error ⟨some 400, none, none, "400 BAD_REQUEST"⟩) 5 60 =
      (.error ⟨some 400, none, none, "400 BAD_REQUEST"⟩, []) := by
  constructor
  · have h := (c3_retry_backoff (fun k => if k < 3
      then .error ⟨some 503, none, none, "503 UNAVAILABLE"⟩
      else .ok 7)).2.2.2 3 7 (by omega)
      (fun j hj => ⟨⟨some 503, none, none, "503 UNAVAILABLE"⟩,
        by simp [show j < 3 from hj], by decide⟩)
      (by simp)
    rw [h]
    rfl
  · have h := (c3_retry_backoff
      (fun _ => .error ⟨some 400, none, none, "400 BAD_REQUEST"⟩)).2.1 0
      ⟨some 400, none, none, "400 BAD_REQUEST"⟩ (by omega)
      (fun j hj => absurd hj (by omega)) rfl (by decide)
    rw [h]
    rfl

/-- Upload loop over a block of frame entries: successful uploads append
their handles in order, failed ones are skipped, and processing continues
with the rest of the manifest. -/
theorem uploadFiles_frames (up : String → Option Handle) (frameFiles : List String) :
    ∀ (rest : List (UploadKind × String)) (acc : UploadedFiles),
      uploadFiles up ((frameFiles.map fun f => (UploadKind.frame, f)) ++ rest) acc =
        uploadFiles up rest { acc with frames := acc.frames ++ frameFiles.filterMap up } := by
  induction frameFiles with
  | nil =>
    intro rest acc
    simp
  | cons f t ih =>
    intro rest acc
    cases hf : up f <;>
      simp [uploadFiles, hf, ih, List.filterMap_cons, List.append_assoc]

/-- Upload loop over the optional trailing note entry: a successful upload
sets the note handle, a failed one leaves the accumulator unchanged. -/
theorem uploadFiles_note (up : String → Option Handle) (noteFile : Option String)
    (acc : UploadedFiles) :
    uploadFiles up ((noteFile.map fun n => (UploadKind.note, n)).toList) acc =
      .ok (match noteFile with
        | none => acc
        | some n =>
          match up n with
          | some h => { acc with note := some h }
          | none => acc) := by
  cases noteFile with
  | none => rfl
  | some n => cases h : up n <;> simp [uploadFiles, h]

/-- C6: over the canonical manifest shape (optional audio entry, then the
frame entries in order, then an optional note entry), an audio upload
failure aborts the run; otherwise the run continues past any frame/note
upload failures, keeping the successful frame handles in their original
order, and the generation request is assembled as prompt text, then the
audio handle if present, then the frame handles in order, then the note
handle if present. -/
theorem c6_upload_and_request_order (up : String → Option Handle)
    (promptText : String) (audioFile : Option String)
    (frameFiles : List String) (noteFile : Option String) :
    (∀ a, audioFile = some a → up a = none →
      uploadFiles up
        ((audioFile.map fun f => (UploadKind.audio, f)).toList
          ++ (frameFiles.map fun f => (UploadKind.frame, f))
          ++ (noteFile.map fun n => (UploadKind.note, n)).toList) emptyUploaded
        = .error (.audioUploadFailed a)) ∧
    ((audioFile = none ∨ ∃ a h, audioFile = some a ∧ up a = some h) →
      uploadFiles up
        ((audioFile.map fun f => (UploadKind.audio, f)).toList
          ++ (frameFiles.map fun f => (UploadKind.frame, f))
          ++ (noteFile.map fun n => (UploadKind.note, n)).toList) emptyUploaded
        = .ok { audio := audioFile.bind up,
                frames := frameFiles.filterMap up,
                note := noteFile.bind up } ∧
      contentParts promptText
          { audio := audioFile.bind up,
            frames := frameFiles.filterMap up,
            note := noteFile.bind up } =
        [Part.text promptText]
          ++ ((audioFile.bind up).map Part.file).toList
          ++ (frameFiles.filterMap up).map Part.file
          ++ ((noteFile.bind up).map Part.file).toList) := by
  constructor
  · intro a ha hfa
    subst ha
    simp [uploadFiles, hfa]
  · intro hok
    constructor
    · rcases hok with rfl | ⟨a, h, rfl, hah⟩
      · simp only [Option.map_none', Option.toList_none, List.nil_append,
          Option.none_bind]
        rw [uploadFiles_frames, uploadFiles_note]
        cases noteFile with
        | none => simp [emptyUploaded]
        | some n => cases hn : up n <;> simp [emptyUploaded, hn]
      · simp only [Option.map_some', Option.toList_some, List.cons_append,
          List.nil_append, Option.some_bind]
        rw [show ((UploadKind.audio, a) :: ((frameFiles.map fun f =>
          (UploadKind.frame, f)) ++ (noteFile.map fun n =>
            (UploadKind.note, n)).toList)) = ((UploadKind.audio, a) ::
              ((frameFiles.map fun f => (UploadKind.frame, f))
                ++ (noteFile.map fun n => (UploadKind.note, n)).toList)) from rfl]
        rw [show uploadFiles up ((UploadKind.audio, a) :: ((frameFiles.map fun f =>
          (UploadKind.frame, f)) ++ (noteFile.map fun n =>
            (UploadKind.note, n)).toList)) emptyUploaded =
          uploadFiles up ((frameFiles.map fun f => (UploadKind.frame, f))
            ++ (noteFile.map fun n => (UploadKind.note, n)).toList)
            { emptyUploaded with audio := some h } by
          simp [uploadFiles, hah]]
        rw [uploadFiles_frames, uploadFiles_note]
        cases noteFile with
        | none => simp [emptyUploaded, hah]
        | some n => cases hn : up n <;> simp [emptyUploaded, hah, hn]
    · cases hau : audioFile.bind up <;> cases hnu : noteFile.bind up <;>
        simp [contentParts]

/-- C6 witness: audio succeeds, the second of three frames fails, the note
succeeds; the run continues and the request holds prompt, audio, the two
successful frames in order, then the note. -/
theorem c6_upload_and_request_order_witness :
    uploadFiles (fun f => if f = "frame_0002.jpg" then none else some f.length)
        [(UploadKind.audio, "audio.m4a"),
          (UploadKind.frame, "frame_0001.jpg"), (UploadKind.frame, "frame_0002.jpg"),
          (UploadKind.frame, "frame_0003.jpg"), (UploadKind.note, "note.txt")]
        emptyUploaded
      = .ok { audio := some 9, frames := [14, 14], note := some 8 } ∧
    contentParts "analyse"
        { audio := some 9, frames := [14, 14], note := some 8 } =
      [Part.text "analyse", Part.file 9, Part.file 14, Part.file 14, Part.file 8] := by
  have h := (c6_upload_and_request_order
    (fun f => if f = "frame_0002.jpg" then none else some f.length) "analyse"
    (some "audio.m4a") ["frame_0001.jpg", "frame_0002.jpg", "frame_0003.jpg"]
    (some "note.txt")).2 (Or.inr ⟨"audio.m4a", 9, rfl, by decide⟩)
  exact ⟨h.1, h.2⟩

/-- Every attempted-release list is a prefix of the uploaded handles. -/
theorem releaseAttempts_front (deleteOk : Handle → Bool) :
    ∀ l : List Handle, List.IsPrefix (releaseAttempts deleteOk l) l := by
  intro l
  induction l with
  | nil => simp [releaseAttempts]
  | cons h t ih =>
    cases hok : deleteOk h <;> simp [releaseAttempts, hok]
    exact ih

/-- When every delete succeeds, every uploaded handle is released. -/
theorem releaseAttempts_all_ok (deleteOk : Handle → Bool) :
    ∀ l : List Handle, (∀ h ∈ l, deleteOk h = true) →
      releaseAttempts deleteOk l = l := by
  intro l
  induction l with
  | nil => intro _; rfl
  | cons h t ih =>
    intro hall
    simp [releaseAttempts, hall h (by simp), ih fun x hx => hall x (by simp [hx])]

/-- C2 (counterexample): (a) generation raising leaves the uploaded audio
handle 0 with no release attempt at all; (b) with a non-empty generation
result, a failing release of handle 0 prevents any release attempt for
handle 1 even though deleting 1 would succeed.  Both contradict the claim
that every uploaded handle gets a release attempt regardless of the
generation outcome and of other handles' release failures. -/
theorem c2_counterexample :
    (uploadedHandles ⟨some 0, [], none⟩ = [0] ∧
      (generateAndCleanup ⟨some 0, [], none⟩
        (.error ⟨some 503, none, none, "503 UNAVAILABLE"⟩) fun _ => true).2 = []) ∧
    (uploadedHandles ⟨some 0, [1], none⟩ = [0, 1] ∧
      (generateAndCleanup ⟨some 0, [1], none⟩ (.ok "doc") fun h => h != 0).2
        = [0]) := by
  decide

/-- C2 (amended): remote handles are released only when generation
succeeds with a non-empty text (a generation exception or an empty result
propagates with no release attempted); in that case releases run in order
(audio, frames, note) and stop at the first failing release — the attempts
form a prefix of the uploaded handles, every handle is attempted when all
deletes succeed, and release failures never change the success result. -/
theorem c2_release_only_after_success (u : UploadedFiles)
    (genOutcome : Except PyErr String) (deleteOk : Handle → Bool) :
    (∀ e, genOutcome = .error e →
      generateAndCleanup u genOutcome deleteOk = (.error (.serviceError e), [])) ∧
    (genOutcome = .ok "" →
      generateAndCleanup u genOutcome deleteOk = (.error .emptyResponse, [])) ∧
    (∀ t, genOutcome = .ok t → t ≠ "" →
      (generateAndCleanup u genOutcome deleteOk).1 = .ok t ∧
      List.IsPrefix (generateAndCleanup u genOutcome deleteOk).2
        (uploadedHandles u) ∧
      ((∀ h ∈ uploadedHandles u, deleteOk h = true) →
        (generateAndCleanup u genOutcome deleteOk).2 = uploadedHandles u)) := by
  refine ⟨?_, ?_, ?_⟩
  · intro e he
    subst he
    rfl
  · intro he
    subst he
    rfl
  · intro t ht hne
    subst ht
    refine ⟨by simp [generateAndCleanup, hne], ?_, ?_⟩
    · simp only [generateAndCleanup, if_neg hne]
      exact releaseAttempts_front deleteOk (uploadedHandles u)
    · intro hall
      simp only [generateAndCleanup, if_neg hne]
      exact releaseAttempts_all_ok deleteOk (uploadedHandles u) hall

/-- C2 (amended) witness: non-empty result and all deletes succeeding
releases every uploaded handle in order audio, frames, note. -/
theorem c2_release_only_after_success_witness :
    generateAndCleanup ⟨some 3, [4, 5], some 6⟩ (.ok "doc") (fun _ => true)
      = (.ok "doc", [3, 4, 5, 6]) := by
  have h := (c2_release_only_after_success ⟨some 3, [4, 5], some 6⟩
    (.ok "doc") fun _ => true).2.2 "doc" rfl (by decide)
  exact Prod.ext h.1 ((h.2.2 (by decide)).trans (by decide))

/-- C8 (code bug): the failure rollback removes the whole target-directory
tree.  Starting from a filesystem holding only the original video at
videos/input.mp4, running with the explicit target directory `videos`
(the directory containing the video) and a failing transcode stage deletes
the original input video.  By contrast, a video outside the target
directory survives, and the rollback removes every path under the target
directory. -/
theorem c8_rollback_deletes_video_inside_target :
    runModel [["videos", "input.mp4"]] ["videos"]
        ⟨false, true, true, true, true⟩ false false = (false, []) ∧
    ["videos", "input.mp4"] ∉
      (runModel [["videos", "input.mp4"]] ["videos"]
        ⟨false, true, true, true, true⟩ false false).2 ∧
    ["home", "input.mp4"] ∈
      (runModel [["home", "input.mp4"]] ["videos"]
        ⟨false, true, true, true, true⟩ false false).2 ∧
    ((runModel [["home", "input.mp4"]] ["videos"]
        ⟨false, true, true, true, true⟩ false false).2.all
      fun p => !(["videos"].isPrefixOf p)) = true := by
  decide

end MeetingProcessor
